import Mathlib

/-!
Shallow embedding of the REST client core of `tap_medusa_v2`
(`src/tap_medusa_v2/client.py`): credential acquisition and caching,
offset pagination, URL-parameter construction and base-URL normalization.

Python optional config values are modelled as `Option`; Python truthiness
of strings (`""` is falsy) and integers (`0` is falsy) is made explicit.
Timestamps (`datetime.datetime.utcnow().timestamp()`, rounded) are
modelled as natural numbers of seconds since the Unix epoch.
-/

namespace Medusa

/-- Python truthiness of an optional string: `None` and `""` are falsy. -/
def strTruthy : Option String → Bool
  | none => false
  | some s => !(s == "")

/-- Python truthiness of an optional integer: `None` and `0` are falsy. -/
def intOptTruthy : Option Int → Bool
  | none => false
  | some i => !(i == 0)

/-- The tap configuration object (`self._tap._config` / `self.config`).
Static keys (`base_url`, `email`, `password`, `api_key`, `user_agent`,
`start_date`) plus the credential state the client writes back
(`access_token`, `expires_in`).  `start_date` is the instant denoted by
the configured ISO date string, as parsed by `pendulum.parse` (seconds
since the epoch); `none` means the key is absent. -/
structure Config where
  base_url : Option String := none
  email : Option String := none
  password : Option String := none
  api_key : Option String := none
  user_agent : Option String := none
  start_date : Option Nat := none
  access_token : Option String := none
  expires_in : Option Int := none
  deriving Repr, DecidableEq

/-- `TOKEN_EXPIRY_BUFFER_SECONDS = 120` (client.py line 15). -/
def TOKEN_EXPIRY_BUFFER_SECONDS : Int := 120

/-- `TOKEN_VALIDITY_MINUTES = 60` (client.py line 16). -/
def TOKEN_VALIDITY_MINUTES : Int := 60

/-- `MedusaStream.is_token_valid` (client.py lines 60-71): reads
`access_token` and `expires_in` from the tap config, takes `now` as the
rounded current UTC timestamp, and returns
`not ((expires_in - now) < TOKEN_EXPIRY_BUFFER_SECONDS)` after the two
falsiness guards.  The `getD 0` is only reached when `expires_in` passed
the truthiness guard, i.e. is `some e` with `e ≠ 0`. -/
def is_token_valid (cfg : Config) (now : Nat) : Bool :=
  let access_token := cfg.access_token
  let expires_in := cfg.expires_in
  if !(strTruthy access_token) then false
  else if !(intOptTruthy expires_in) then false
  else !(decide ((expires_in.getD 0 - (now : Int)) < TOKEN_EXPIRY_BUFFER_SECONDS))

/-- Python's `str.rstrip("/")`: remove every trailing `'/'` character. -/
def rstripSlash (s : String) : String :=
  String.mk ((s.data.reverse.dropWhile (fun c => c == '/')).reverse)

/-- Python's `str.endswith(suffix)`: `suffix` is a suffix of `s`. -/
def strEndsWith (s suffix : String) : Bool :=
  suffix.data.reverse.isPrefixOf s.data.reverse

/-- `MedusaStream.base_url` (client.py lines 34-36):
`self.config.get("base_url", "").rstrip("/")`. -/
def base_url (cfg : Config) : String :=
  rstripSlash (cfg.base_url.getD "")

/-- The base-URL normalization of `MedusaStream.url_base` (client.py lines
38-40) as a function of the configured root URL string: strip trailing
slashes, then append `"/admin"` unless the result already ends with
`"/admin"`. -/
def url_base_of (root : String) : String :=
  let b := rstripSlash root
  if strEndsWith b "/admin" then b else b ++ "/admin"

/-- `MedusaStream.url_base` (client.py lines 38-40). -/
def url_base (cfg : Config) : String :=
  url_base_of (cfg.base_url.getD "")

/-- `MedusaStream.auth_url` (client.py lines 42-44):
`f"{self.base_url}/auth/user/emailpass"`. -/
def auth_url (cfg : Config) : String :=
  base_url cfg ++ "/auth/user/emailpass"

/-- An HTTP response as observed by the client: status code, reason
phrase, final URL, raw body text, and the `"token"` field of the parsed
JSON body when present (`response.json()["token"]`; `none` models a
missing key, which raises `KeyError` in Python). -/
structure HttpResponse where
  status : Nat
  reason : String := ""
  url : String := ""
  text : String := ""
  token : Option String := none
  deriving Repr, DecidableEq

/-- `MedusaStream.response_error_message` (client.py lines 142-153):
"Client" for 400-499, "Server" otherwise, then the formatted diagnostic
string. -/
def response_error_message (r : HttpResponse) : String :=
  let error_type := if 400 ≤ r.status ∧ r.status < 500 then "Client" else "Server"
  toString r.status ++ " " ++ error_type ++ " Error: " ++ r.reason ++
    " for url: " ++ r.url ++ " Response: " ++ r.text

/-- Modelled from the spec: `validate_response` (inherited from the
`singer_sdk` RESTStream, not part of `src/`) succeeds on a 2xx response
and on a non-2xx response fails with the HTTP error detail produced by
`response_error_message`. -/
def validate_response (r : HttpResponse) : Except String Unit :=
  if 200 ≤ r.status ∧ r.status ≤ 299 then Except.ok ()
  else Except.error (response_error_message r)

/-- The failure modes of `get_access_token`: the wrapped exception
`Exception(f"Failed during token generation: {e}")` raised when response
validation fails, and the `KeyError` raised when the response body has no
`"token"` key. -/
inductive GetTokenError where
  | authFailure (detail : String)
  | tokenKeyMissing
  deriving Repr, DecidableEq

/-- The login exchange request issued by `get_access_token` (client.py
lines 77-87): `POST auth_url` with the configured email and password. -/
structure LoginRequest where
  url : String
  email : Option String
  password : Option String
  deriving Repr, DecidableEq

/-- The mutable state `get_access_token` touches: the in-memory tap
config (`self._tap._config`) and the JSON object stored in the config
file (`self._tap.config_file`). -/
structure TapState where
  config : Config
  file : Config
  deriving Repr, DecidableEq

/-- `MedusaStream.get_access_token` (client.py lines 73-104), with the
current rounded UTC timestamp `now` and the login exchange's HTTP
response `resp` passed as oracle inputs.  Returns the Python return value
(or the raised exception), the final state, and the login request issued
(`none` when no network call was made). -/
def get_access_token (st : TapState) (now : Nat) (resp : HttpResponse) :
    Except GetTokenError String × TapState × Option LoginRequest :=
  let current_token := st.config.access_token
  if !(is_token_valid st.config now) then
    let req : LoginRequest := ⟨auth_url st.config, st.config.email, st.config.password⟩
    match validate_response resp with
    | Except.error e =>
        (Except.error (GetTokenError.authFailure ("Failed during token generation: " ++ e)),
          st, some req)
    | Except.ok _ =>
        match resp.token with
        | none => (Except.error GetTokenError.tokenKeyMissing, st, some req)
        | some new_token =>
            let expiry_timestamp : Int := (now : Int) + TOKEN_VALIDITY_MINUTES * 60
            let cfg' := { st.config with
              access_token := some new_token, expires_in := some expiry_timestamp }
            (Except.ok new_token, ⟨cfg', cfg'⟩, some req)
  else
    (Except.ok (current_token.getD ""), st, none)

/-- Credential states reachable by the Credential Manager, starting from
a configuration with no recorded expiry ("created on first successful
login") and stepping by calls to `get_access_token` at arbitrary times
with arbitrary login responses.  The second component records the time of
the most recent successful token issuance, if any. -/
inductive ReachableCred : TapState → Option Nat → Prop where
  | init (cfg file : Config) (h : cfg.expires_in = none) :
      ReachableCred ⟨cfg, file⟩ none
  | step (st : TapState) (issued : Option Nat) (now : Nat) (resp : HttpResponse)
      (h : ReachableCred st issued) :
      ReachableCred (get_access_token st now resp).2.1
        (if (get_access_token st now resp).1.toOption.isSome ∧
            (get_access_token st now resp).2.2.isSome
         then some now else issued)

/-- A JSON value, as returned by `response.json()`. -/
inductive Json where
  | null
  | boolean (b : Bool)
  | num (n : Int)
  | str (s : String)
  | arr (elems : List Json)
  | obj (fields : List (String × Json))

/-- Modelled from the spec: `extract_jsonpath` (singer_sdk helper, not in
`src/`) at the stream's records path, whose default `"$[*]"` (client.py
line 31) selects the elements of the top-level array (for a top-level
object, its member values; nothing for a scalar). -/
def extract_jsonpath_star : Json → List Json
  | Json.arr elems => elems
  | Json.obj fields => fields.map (fun f => f.2)
  | _ => []

/-- `MedusaStream.get_next_page_token` (client.py lines 106-115): default
the previous token to `0` (`previous_token or 0`), count the records at
the records JSON path, and return `previous_token + records_len` when the
count is nonzero, `None` otherwise (the function falls off the end). -/
def get_next_page_token (res_json : Json) (previous_token : Option Int) : Option Int :=
  let previous_token := previous_token.getD 0
  let records_len := (extract_jsonpath_star res_json).length
  if records_len ≠ 0 then some (previous_token + records_len) else none

/-- Insertion into a Python dict modelled as an association list:
`m[k] = v` overwrites the value at `k` if the key is present, otherwise
appends the new binding. -/
def dictInsert {V : Type} (m : List (String × V)) (k : String) (v : V) :
    List (String × V) :=
  if m.any (fun p => p.1 == k) then m.map (fun p => if p.1 == k then (k, v) else p)
  else m ++ [(k, v)]

/-- A value in the URL-parameter mapping built by `get_url_params`:
either the integer offset or a formatted date string. -/
inductive ParamVal where
  | int (i : Int)
  | str (s : String)
  deriving Repr, DecidableEq

/-- Gregorian civil date `(year, month, day)` of day number `z0` counted
from 1970-01-01, by the standard civil-from-days algorithm; this is the
calendar arithmetic performed by `datetime` for UTC timestamps. -/
def civilFromDays (z0 : Nat) : Nat × Nat × Nat :=
  let z := z0 + 719468
  let era := z / 146097
  let doe := z % 146097
  let yoe := (doe - doe / 1460 + doe / 36524 - doe / 146096) / 365
  let y := yoe + era * 400
  let doy := doe - (365 * yoe + yoe / 4 - yoe / 100)
  let mp := (5 * doy + 2) / 153
  let d := doy - (153 * mp + 2) / 5 + 1
  let m := if mp < 10 then mp + 3 else mp - 9
  (if m ≤ 2 then y + 1 else y, m, d)

/-- Zero-pad a number to two digits, as `strftime` does for `%m`, `%d`,
`%H`, `%M`, `%S`. -/
def pad2 (n : Nat) : String :=
  if n < 10 then "0" ++ toString n else toString n

/-- Zero-pad a number to four digits, as `strftime` does for `%Y`. -/
def pad4 (n : Nat) : String :=
  if n < 10 then "000" ++ toString n
  else if n < 100 then "00" ++ toString n
  else if n < 1000 then "0" ++ toString n
  else toString n

/-- `start_date.strftime("%Y-%m-%dT%H:%M:%SZ")` (client.py line 138) for
the UTC instant `t` seconds after the Unix epoch. -/
def strftime_iso (t : Nat) : String :=
  let days := t / 86400
  let sod := t % 86400
  let ymd := civilFromDays days
  pad4 ymd.1 ++ "-" ++ pad2 ymd.2.1 ++ "-" ++ pad2 ymd.2.2 ++ "T" ++
    pad2 (sod / 3600) ++ ":" ++ pad2 (sod % 3600 / 60) ++ ":" ++ pad2 (sod % 60) ++ "Z"

/-- The per-stream replication context: `bookmark` is the previously
recorded bookmark timestamp for the stream, if any. -/
structure Context where
  bookmark : Option Nat := none
  deriving Repr, DecidableEq

/-- Modelled from the spec: `get_starting_timestamp` (singer_sdk helper,
not in `src/`) returns the replication context's previously recorded
bookmark timestamp, if any. -/
def get_starting_timestamp (context : Context) : Option Nat :=
  context.bookmark

/-- `MedusaStream.get_starting_time` (client.py lines 117-123): parse the
configured `start_date` if present, then return
`rep_key or start_date` — the bookmark timestamp takes priority
(`datetime` objects are always truthy). -/
def get_starting_time (cfg : Config) (context : Context) : Option Nat :=
  let start_date := cfg.start_date
  let rep_key := get_starting_timestamp context
  rep_key.orElse (fun _ => start_date)

/-- `MedusaStream.get_url_params` (client.py lines 125-140), with the
stream attributes `replication_key` and `additional_params` passed
explicitly.  `params` starts as the static additional parameters (the
`if self.additional_params` guard is a no-op on the empty dict); the
offset is set when `next_page_token` is truthy (present and nonzero); the
`<replication_key>[gt]` filter is set when a starting time resolves and a
replication key is configured (truthy), at the starting time plus one
second.  The `getD` defaults are only reached under the corresponding
truthiness guards. -/
def get_url_params (cfg : Config) (replication_key : Option String)
    (additional_params : List (String × ParamVal)) (context : Context)
    (next_page_token : Option Int) : List (String × ParamVal) :=
  let params := additional_params
  let params :=
    if intOptTruthy next_page_token then
      dictInsert params "offset" (ParamVal.int (next_page_token.getD 0))
    else params
  let start_date := get_starting_time cfg context
  if start_date.isSome && strTruthy replication_key then
    dictInsert params ((replication_key.getD "") ++ "[gt]")
      (ParamVal.str (strftime_iso (start_date.getD 0 + 1)))
  else params

/-- `MedusaStream.http_headers` (client.py lines 46-58), threading the
credential state through `get_access_token` for the `else` branch: adds
`User-Agent` when the `user_agent` key is configured, then exactly one
authentication header — `x-medusa-access-token` with the static API key
when `api_key` is truthy, otherwise `Authorization: Bearer <token>` with
the token from `get_access_token` (whose failure propagates).  The
`headers` dict starts as `{"User-Agent": ...}` when the `user_agent` key
is present in the config (`user_agent_headers`). -/
def user_agent_headers (cfg : Config) : List (String × String) :=
  match cfg.user_agent with
  | some ua => [("User-Agent", ua)]
  | none => []

/-- `MedusaStream.http_headers` continued: the authentication header. -/
def http_headers (st : TapState) (now : Nat) (resp : HttpResponse) :
    Except GetTokenError (List (String × String)) × TapState × Option LoginRequest :=
  let headers : List (String × String) := user_agent_headers st.config
  if strTruthy st.config.api_key then
    (Except.ok (dictInsert headers "x-medusa-access-token" (st.config.api_key.getD "")),
      st, none)
  else
    match get_access_token st now resp with
    | (Except.ok tok, st', req) =>
        (Except.ok (dictInsert headers "Authorization" ("Bearer " ++ tok)), st', req)
    | (Except.error e, st', req) => (Except.error e, st', req)

theorem lookup_map_replace {V : Type} (t : List (String × V)) (k : String) (v : V)
    (h : t.any (fun p => p.1 == k) = true) :
    List.lookup k (t.map (fun p => if p.1 == k then (k, v) else p)) = some v := by
  induction t with
  | nil => simp at h
  | cons p t ih =>
    obtain ⟨pk, pv⟩ := p
    by_cases hp : pk = k
    · subst hp
      simp [List.lookup_cons]
    · have hb : ((pk, pv).1 == k) = false := by simp [hp]
      simp only [List.any_cons, hb, Bool.false_or] at h
      have hk : (k == pk) = false := by simp [Ne.symm hp]
      simp only [List.map_cons, hb, Bool.false_eq_true, if_false, List.lookup_cons, hk]
      exact ih h

theorem lookup_map_replace_ne {V : Type} (t : List (String × V)) (k k' : String) (v : V)
    (h : ¬(k' = k)) :
    List.lookup k' (t.map (fun p => if p.1 == k then (k, v) else p)) =
      List.lookup k' t := by
  induction t with
  | nil => simp
  | cons p t ih =>
    obtain ⟨pk, pv⟩ := p
    by_cases hp : pk = k
    · subst hp
      have h1 : (k' == pk) = false := by simp [h]
      simpa [List.lookup_cons, h1] using ih
    · cases hk : (k' == pk) with
      | true => simp [List.lookup_cons, hp, hk]
      | false => simpa [List.lookup_cons, hp, hk] using ih

theorem lookup_dictInsert_self {V : Type} (m : List (String × V)) (k : String) (v : V) :
    List.lookup k (dictInsert m k v) = some v := by
  unfold dictInsert
  by_cases hany : m.any (fun p => p.1 == k) = true
  · rw [if_pos hany]
    exact lookup_map_replace m k v hany
  · rw [if_neg hany]
    have hnone : List.lookup k m = none := by
      rw [List.lookup_eq_none_iff]
      intro p hp
      have hfp : ¬((p.1 == k) = true) :=
        fun hc => hany (List.any_eq_true.mpr ⟨p, hp, hc⟩)
      simp only [beq_iff_eq] at hfp
      rw [bne_iff_ne]
      exact fun hc => hfp hc.symm
    rw [List.lookup_append, hnone]
    simp

theorem lookup_dictInsert_ne {V : Type} (m : List (String × V)) (k k' : String) (v : V)
    (h : ¬(k' = k)) :
    List.lookup k' (dictInsert m k v) = List.lookup k' m := by
  unfold dictInsert
  by_cases hany : m.any (fun p => p.1 == k) = true
  · rw [if_pos hany]
    exact lookup_map_replace_ne m k k' v h
  · rw [if_neg hany]
    rw [List.lookup_append]
    have h2 : List.lookup k' [(k, v)] = none := by
      have h1 : (k' == k) = false := by simp [h]
      simp [List.lookup_cons, h1]
    rw [h2]
    simp

theorem strEndsWith_append_self (b suffix : String) :
    strEndsWith (b ++ suffix) suffix = true := by
  simp only [strEndsWith, String.data_append, List.reverse_append,
    List.isPrefixOf_iff_prefix]
  exact List.prefix_append _ _

theorem rstripSlash_of_strEndsWith_admin (s : String)
    (h : strEndsWith s "/admin" = true) : rstripSlash s = s := by
  simp only [strEndsWith, List.isPrefixOf_iff_prefix] at h
  have hdata : ("/admin".data.reverse : List Char) = ['n', 'i', 'm', 'd', 'a', '/'] := rfl
  rw [hdata] at h
  obtain ⟨t, ht⟩ := h
  apply String.ext
  show (s.data.reverse.dropWhile (fun c => c == '/')).reverse = s.data
  rw [← ht]
  have hcond : (('n' : Char) == '/') = false := by decide
  simp only [List.cons_append, List.dropWhile_cons, hcond, Bool.false_eq_true, if_false]
  have hlist : ('n' :: 'i' :: 'm' :: 'd' :: 'a' :: '/' :: (([] : List Char) ++ t)) =
      ['n', 'i', 'm', 'd', 'a', '/'] ++ t := by simp
  rw [hlist, ht, List.reverse_reverse]

theorem strEndsWith_url_base_of (root : String) :
    strEndsWith (url_base_of root) "/admin" = true := by
  unfold url_base_of
  by_cases h : strEndsWith (rstripSlash root) "/admin"
  · simp [h]
  · simp only [h, if_false]
    exact strEndsWith_append_self _ _

end Medusa

namespace Medusa

/-- C1: `is_token_valid` returns true exactly when a (truthy) access token
is cached, an expiry timestamp is recorded, and the recorded expiry minus
the current time is at least 120 seconds; in every other state it returns
false.  (An expiry recorded as `0` is falsy in Python and also satisfies
`e - now < 120` for every `now ≥ 0`, so both readings agree.) -/
theorem is_token_valid_iff (cfg : Config) (now : Nat) :
    is_token_valid cfg now = true ↔
      (strTruthy cfg.access_token = true ∧
        ∃ e : Int, cfg.expires_in = some e ∧ 120 ≤ e - (now : Int)) := by
  unfold is_token_valid
  cases htok : cfg.access_token with
  | none => simp [strTruthy]
  | some s =>
    cases hexp : cfg.expires_in with
    | none => simp [strTruthy, intOptTruthy]
    | some e =>
      by_cases hs : s = ""
      · simp [strTruthy, hs]
      · by_cases he : e = 0
        · subst he
          constructor
          · intro h
            exfalso
            simp [strTruthy, intOptTruthy, hs] at h
          · rintro ⟨-, e', he', hle⟩
            exfalso
            have : e' = 0 := by simpa using he'.symm
            subst this
            omega
        · simp only [strTruthy, intOptTruthy, hs, he]
          constructor
          · intro h
            refine ⟨by simp [hs], e, rfl, ?_⟩
            simp only [TOKEN_EXPIRY_BUFFER_SECONDS, Option.getD_some] at h
            by_contra hlt
            push_neg at hlt
            simp [show (e - (now : Int)) < 120 from hlt] at h
          · rintro ⟨-, e', he', hle⟩
            have heq : e = e' := by simpa using he'
            subst heq
            simp only [TOKEN_EXPIRY_BUFFER_SECONDS, Option.getD_some]
            have hnot : ¬ (e - (now : Int) < 120) := by omega
            simp [hs, he, hnot]

theorem expires_in_of_reachableCred (st : TapState) (issued : Option Nat)
    (h : ReachableCred st issued) :
    st.config.expires_in = issued.map (fun t => (t : Int) + TOKEN_VALIDITY_MINUTES * 60) := by
  induction h with
  | init cfg file h => simpa using h
  | step st issued now resp h ih =>
    cases hv : is_token_valid st.config now with
    | true => simpa [get_access_token, hv] using ih
    | false =>
      by_cases h2 : 200 ≤ resp.status ∧ resp.status ≤ 299
      · cases htok : resp.token with
        | none => simpa [get_access_token, hv, validate_response, h2, htok] using ih
        | some t => simp [get_access_token, hv, validate_response, h2, htok, Except.toOption]
      · simpa [get_access_token, hv, validate_response, h2] using ih

/-- C2: when the cached token is not valid and the login exchange
succeeds, `get_access_token` replaces the credential state wholesale with
the new token and an expiry equal to the issuance time plus exactly 60
minutes, persists the entire updated configuration object to the config
file by overwriting it, and returns the new token; consequently in every
reachable credential state the expiry, when present, equals the time of
the last successful issuance plus the fixed 60-minute validity window. -/
theorem get_access_token_refresh_spec :
    (∀ (st : TapState) (now : Nat) (resp : HttpResponse) (tok : String),
      is_token_valid st.config now = false →
      200 ≤ resp.status → resp.status ≤ 299 →
      resp.token = some tok →
      get_access_token st now resp =
        (Except.ok tok,
         ⟨{ st.config with access_token := some tok, expires_in := some ((now : Int) + TOKEN_VALIDITY_MINUTES * 60) },
          { st.config with access_token := some tok, expires_in := some ((now : Int) + TOKEN_VALIDITY_MINUTES * 60) }⟩,
         some ⟨auth_url st.config, st.config.email, st.config.password⟩)) ∧
    (∀ (st : TapState) (issued : Option Nat), ReachableCred st issued →
      st.config.expires_in =
        issued.map (fun t => (t : Int) + TOKEN_VALIDITY_MINUTES * 60)) := by
  constructor
  · intro st now resp tok hinvalid h200 h299 htok
    simp [get_access_token, hinvalid, validate_response,
      show 200 ≤ resp.status ∧ resp.status ≤ 299 from ⟨h200, h299⟩, htok]
  · exact expires_in_of_reachableCred

theorem get_access_token_refresh_spec_witness :
    get_access_token ⟨{}, {}⟩ 1000 { status := 200, token := some "T" } =
      (Except.ok "T",
       ⟨{ ({} : Config) with access_token := some "T", expires_in := some ((1000 : Int) + TOKEN_VALIDITY_MINUTES * 60) },
        { ({} : Config) with access_token := some "T", expires_in := some ((1000 : Int) + TOKEN_VALIDITY_MINUTES * 60) }⟩,
       some ⟨auth_url {}, none, none⟩) :=
  get_access_token_refresh_spec.1 ⟨{}, {}⟩ 1000 { status := 200, token := some "T" }
    "T" rfl (by decide) (by decide) rfl

/-- C3: when the cached token is not valid, `get_access_token` performs a
login exchange with the configured email and password against the
authentication endpoint; on a non-2xx response it fails with the wrapped
authentication error carrying the HTTP error detail; and it returns a
token exactly when no authentication failure occurs (2xx response with a
token in the body). -/
theorem get_access_token_login_spec (st : TapState) (now : Nat) (resp : HttpResponse)
    (hinvalid : is_token_valid st.config now = false) :
    (get_access_token st now resp).2.2 =
        some ⟨auth_url st.config, st.config.email, st.config.password⟩ ∧
    (¬(200 ≤ resp.status ∧ resp.status ≤ 299) →
      (get_access_token st now resp).1 =
        Except.error (GetTokenError.authFailure
          ("Failed during token generation: " ++ response_error_message resp))) ∧
    ((∃ t, (get_access_token st now resp).1 = Except.ok t) ↔
      ((200 ≤ resp.status ∧ resp.status ≤ 299) ∧ resp.token ≠ none)) := by
  by_cases h2 : 200 ≤ resp.status ∧ resp.status ≤ 299
  · cases htok : resp.token with
    | none => simp [get_access_token, hinvalid, validate_response, h2, htok]
    | some t => simp [get_access_token, hinvalid, validate_response, h2, htok]
  · simp [get_access_token, hinvalid, validate_response, h2]

theorem get_access_token_login_spec_witness :
    (get_access_token ⟨{}, {}⟩ 5 { status := 401, reason := "Unauthorized" }).1 =
      Except.error (GetTokenError.authFailure
        ("Failed during token generation: " ++
          response_error_message { status := 401, reason := "Unauthorized" })) :=
  (get_access_token_login_spec ⟨{}, {}⟩ 5 { status := 401, reason := "Unauthorized" }
    rfl).2.1 (by decide)

/-- C4: whenever `is_token_valid` is true, `get_access_token` returns the
cached token unchanged, performs no login exchange, and leaves the state
(in-memory config and persisted config file) unchanged; hence a second
call within the validity window triggers no additional login exchange. -/
theorem get_access_token_valid_frame (st : TapState) (now : Nat) (resp : HttpResponse)
    (hvalid : is_token_valid st.config now = true) :
    (∃ t, st.config.access_token = some t ∧
      get_access_token st now resp = (Except.ok t, st, none)) ∧
    (∀ (now₂ : Nat) (resp₂ : HttpResponse), is_token_valid st.config now₂ = true →
      (get_access_token (get_access_token st now resp).2.1 now₂ resp₂).2.2 = none) := by
  have htok : ∃ t, st.config.access_token = some t := by
    cases hstr : st.config.access_token with
    | none => rw [is_token_valid] at hvalid; simp [strTruthy, hstr] at hvalid
    | some t => exact ⟨t, rfl⟩
  obtain ⟨t, ht⟩ := htok
  constructor
  · exact ⟨t, ht, by simp [get_access_token, hvalid, ht]⟩
  · intro now₂ resp₂ hvalid₂
    simp [get_access_token, hvalid, hvalid₂]

theorem get_access_token_valid_frame_witness :
    ∃ t, ({ access_token := some "T", expires_in := some 10000 } : Config).access_token
        = some t ∧
      get_access_token
          ⟨{ access_token := some "T", expires_in := some 10000 }, {}⟩ 100
          { status := 500 } =
        (Except.ok t, ⟨{ access_token := some "T", expires_in := some 10000 }, {}⟩, none) :=
  (get_access_token_valid_frame
    ⟨{ access_token := some "T", expires_in := some 10000 }, {}⟩ 100
    { status := 500 } (by decide)).1

/-- C10: if the login exchange inside `get_access_token` fails response
validation (non-2xx), the call raises the wrapped authentication error
and the entire state — cached access token, recorded expiry, and
persisted configuration file — is left unchanged. -/
theorem get_access_token_failed_refresh_frame (st : TapState) (now : Nat)
    (resp : HttpResponse)
    (hinvalid : is_token_valid st.config now = false)
    (hfail : ¬(200 ≤ resp.status ∧ resp.status ≤ 299)) :
    (∃ d, (get_access_token st now resp).1 =
        Except.error (GetTokenError.authFailure d)) ∧
    (get_access_token st now resp).2.1 = st := by
  constructor
  · exact ⟨"Failed during token generation: " ++ response_error_message resp,
      by simp [get_access_token, hinvalid, validate_response, hfail]⟩
  · simp [get_access_token, hinvalid, validate_response, hfail]

theorem get_access_token_failed_refresh_frame_witness :
    (∃ d, (get_access_token ⟨{ email := some "e" }, {}⟩ 7 { status := 503 }).1 =
        Except.error (GetTokenError.authFailure d)) ∧
    (get_access_token ⟨{ email := some "e" }, {}⟩ 7 { status := 503 }).2.1 =
      ⟨{ email := some "e" }, {}⟩ :=
  get_access_token_failed_refresh_frame ⟨{ email := some "e" }, {}⟩ 7
    { status := 503 } rfl (by decide)

theorem lookup_user_agent_headers (cfg : Config) :
    List.lookup "User-Agent" (user_agent_headers cfg) = cfg.user_agent := by
  cases h : cfg.user_agent with
  | none => simp [user_agent_headers, h]
  | some ua => simp [user_agent_headers, h, List.lookup_cons]

theorem lookup_user_agent_headers_ne (cfg : Config) (k : String)
    (h : ¬(k = "User-Agent")) :
    List.lookup k (user_agent_headers cfg) = none := by
  cases hua : cfg.user_agent with
  | none => simp [user_agent_headers, hua]
  | some ua =>
    have hb : (k == "User-Agent") = false := by simp [h]
    simp [user_agent_headers, hua, List.lookup_cons, hb]

theorem offset_ne_gt_key (rk : String) : ¬("offset" = rk ++ "[gt]") := by
  intro h
  have hd : ("offset" : String).data.getLast? = (rk ++ "[gt]").data.getLast? :=
    congrArg (fun s => String.data s |>.getLast?) h
  rw [String.data_append, List.getLast?_append] at hd
  have h1 : ("offset" : String).data.getLast? = some 't' := rfl
  have h2 : ("[gt]" : String).data.getLast? = some ']' := rfl
  rw [h1, h2] at hd
  have h3 : (some ']').or (rk.data.getLast?) = some ']' := rfl
  rw [h3] at hd
  exact absurd hd (by decide)

/-- C5: `get_next_page_token` returns `none` when the count of records at
the records JSON path (default `$[*]`, the top-level array) is zero, and
otherwise the previous token (defaulting to 0) plus that count; in
particular 0 records with previous token 57 yields `none`, and 25 records
with previous token 50 yields 75. -/
theorem get_next_page_token_spec :
    (∀ (res_json : Json) (previous_token : Option Int),
      get_next_page_token res_json previous_token =
        (if (extract_jsonpath_star res_json).length = 0 then none
         else some (previous_token.getD 0 + (extract_jsonpath_star res_json).length))) ∧
    get_next_page_token (Json.arr []) (some 57) = none ∧
    get_next_page_token (Json.arr (List.replicate 25 Json.null)) (some 50) = some 75 := by
  refine ⟨?_, rfl, rfl⟩
  intro res_json previous_token
  unfold get_next_page_token
  by_cases h : (extract_jsonpath_star res_json).length = 0
  · simp [h]
  · simp [h]

/-- C6: `get_url_params` resolves the effective starting time by
preferring the replication context's bookmark over the configured
`start_date`; when a replication key is configured and a starting time
resolves, it sets `<replication_key>[gt]` to the ISO-8601 UTC rendering
of the starting time plus exactly 1 second (so bookmark
2024-01-01T00:00:00Z = 1704067200 with key `updated_at` yields
`updated_at[gt] = 2024-01-01T00:00:01Z`); when no starting time resolves,
no `[gt]` parameter is added. -/
theorem get_url_params_gt_spec :
    (∀ (cfg : Config) (context : Context) (b : Nat),
      context.bookmark = some b → get_starting_time cfg context = some b) ∧
    (∀ (cfg : Config) (context : Context),
      context.bookmark = none → get_starting_time cfg context = cfg.start_date) ∧
    (∀ (cfg : Config) (rk : String) (additional_params : List (String × ParamVal))
        (context : Context) (next_page_token : Option Int) (t : Nat),
      rk ≠ "" → get_starting_time cfg context = some t →
      List.lookup (rk ++ "[gt]")
          (get_url_params cfg (some rk) additional_params context next_page_token) =
        some (ParamVal.str (strftime_iso (t + 1)))) ∧
    (∀ (cfg : Config) (replication_key : Option String)
        (additional_params : List (String × ParamVal)) (context : Context)
        (next_page_token : Option Int),
      get_starting_time cfg context = none →
      get_url_params cfg replication_key additional_params context next_page_token =
        (if intOptTruthy next_page_token = true then
          dictInsert additional_params "offset" (ParamVal.int (next_page_token.getD 0))
         else additional_params)) ∧
    get_url_params {} (some "updated_at") [] { bookmark := some 1704067200 } none =
      [("updated_at" ++ "[gt]", ParamVal.str "2024-01-01T00:00:01Z")] := by
  refine ⟨?_, ?_, ?_, ?_, by decide⟩
  · intro cfg context b h
    unfold get_starting_time get_starting_timestamp
    rw [h]
    rfl
  · intro cfg context h
    unfold get_starting_time get_starting_timestamp
    rw [h]
    rfl
  · intro cfg rk additional_params context next_page_token t hrk hst
    have hb : (rk == "") = false := by simp [hrk]
    simp only [get_url_params, hst, Option.isSome_some, strTruthy, hb,
      Bool.not_false, Bool.and_self, if_true, Option.getD_some]
    exact lookup_dictInsert_self _ _ _
  · intro cfg replication_key additional_params context next_page_token h
    simp [get_url_params, h]

theorem get_url_params_gt_spec_witness :
    List.lookup ("updated_at" ++ "[gt]")
        (get_url_params {} (some "updated_at") [] { bookmark := some 1704067200 } none) =
      some (ParamVal.str (strftime_iso (1704067200 + 1))) :=
  get_url_params_gt_spec.2.2.1 {} "updated_at" [] { bookmark := some 1704067200 }
    none 1704067200 (by decide) rfl

/-- C7: `get_url_params` includes an `offset` parameter equal to the
previous page token exactly when that token is present and nonzero; when
it is absent or zero (and the static additional parameters carry no
`offset` key of their own) the returned mapping has no `offset` key. -/
theorem get_url_params_offset_spec (cfg : Config) (replication_key : Option String)
    (additional_params : List (String × ParamVal)) (context : Context)
    (next_page_token : Option Int)
    (haddl : List.lookup "offset" additional_params = none) :
    List.lookup "offset"
        (get_url_params cfg replication_key additional_params context next_page_token) =
      (if intOptTruthy next_page_token = true then
        some (ParamVal.int (next_page_token.getD 0))
       else none) := by
  unfold get_url_params
  by_cases hgt : ((get_starting_time cfg context).isSome
      && strTruthy replication_key) = true
  · simp only [hgt, if_true]
    rw [lookup_dictInsert_ne _ _ _ _ (offset_ne_gt_key _)]
    by_cases htok : intOptTruthy next_page_token = true
    · simp only [htok, if_true]
      exact lookup_dictInsert_self _ _ _
    · simp only [eq_false_of_ne_true htok, Bool.false_eq_true, if_false]
      exact haddl
  · simp only [eq_false_of_ne_true hgt, Bool.false_eq_true, if_false]
    by_cases htok : intOptTruthy next_page_token = true
    · simp only [htok, if_true]
      exact lookup_dictInsert_self _ _ _
    · simp only [eq_false_of_ne_true htok, Bool.false_eq_true, if_false]
      exact haddl

theorem get_url_params_offset_spec_witness :
    List.lookup "offset" (get_url_params {} none [] {} (some 50)) =
      (if intOptTruthy (some 50) = true then
        some (ParamVal.int ((some (50 : Int)).getD 0))
       else none) :=
  get_url_params_offset_spec {} none [] {} (some 50) rfl

/-- C9: `http_headers` contains a `User-Agent` entry exactly when
`user_agent` is configured (the lookup equals the configured value), and
exactly one authentication header: `x-medusa-access-token` with the
static API key when `api_key` is configured (truthy), in which case the
credential manager is not consulted (state unchanged, no login request)
and no `Authorization` header appears; otherwise `Authorization:
Bearer <token>` with the token obtained from `get_access_token`, and no
`x-medusa-access-token` header. -/
theorem http_headers_spec (st : TapState) (now : Nat) (resp : HttpResponse) :
    (∀ (k : String), st.config.api_key = some k → k ≠ "" →
      ∃ headers, http_headers st now resp = (Except.ok headers, st, none) ∧
        List.lookup "x-medusa-access-token" headers = some k ∧
        List.lookup "Authorization" headers = none ∧
        List.lookup "User-Agent" headers = st.config.user_agent) ∧
    (strTruthy st.config.api_key = false →
      ∀ (tok : String) (st' : TapState) (req : Option LoginRequest),
        get_access_token st now resp = (Except.ok tok, st', req) →
        ∃ headers, http_headers st now resp = (Except.ok headers, st', req) ∧
          List.lookup "Authorization" headers = some ("Bearer " ++ tok) ∧
          List.lookup "x-medusa-access-token" headers = none ∧
          List.lookup "User-Agent" headers = st.config.user_agent) := by
  constructor
  · intro k hk hkne
    have hkt : strTruthy st.config.api_key = true := by simp [strTruthy, hk, hkne]
    refine ⟨dictInsert (user_agent_headers st.config) "x-medusa-access-token"
        (st.config.api_key.getD ""), ?_, ?_, ?_, ?_⟩
    · simp [http_headers, hkt, user_agent_headers]
    · rw [hk]
      exact lookup_dictInsert_self _ _ _
    · rw [lookup_dictInsert_ne _ _ _ _ (by decide)]
      exact lookup_user_agent_headers_ne st.config "Authorization" (by decide)
    · rw [lookup_dictInsert_ne _ _ _ _ (by decide)]
      exact lookup_user_agent_headers st.config
  · intro hfalse tok st' req hga
    refine ⟨dictInsert (user_agent_headers st.config) "Authorization"
        ("Bearer " ++ tok), ?_, ?_, ?_, ?_⟩
    · simp [http_headers, hfalse, hga, user_agent_headers]
    · exact lookup_dictInsert_self _ _ _
    · rw [lookup_dictInsert_ne _ _ _ _ (by decide)]
      exact lookup_user_agent_headers_ne st.config "x-medusa-access-token" (by decide)
    · rw [lookup_dictInsert_ne _ _ _ _ (by decide)]
      exact lookup_user_agent_headers st.config

theorem http_headers_spec_witness :
    ∃ headers,
      http_headers ⟨{ api_key := some "K", user_agent := some "UA" }, {}⟩ 0
          { status := 200 } =
        (Except.ok headers, ⟨{ api_key := some "K", user_agent := some "UA" }, {}⟩, none) ∧
      List.lookup "x-medusa-access-token" headers = some "K" ∧
      List.lookup "Authorization" headers = none ∧
      List.lookup "User-Agent" headers =
        ({ api_key := some "K", user_agent := some "UA" } : Config).user_agent :=
  (http_headers_spec ⟨{ api_key := some "K", user_agent := some "UA" }, {}⟩ 0
    { status := 200 }).1 "K" rfl (by decide)

/-- C8: the base-URL normalization (strip trailing slashes, then append
`/admin` unless the string already ends with `/admin`) is idempotent:
applying it twice yields the same string as applying it once, for every
input URL string. -/
theorem url_base_of_idempotent (root : String) :
    url_base_of (url_base_of root) = url_base_of root := by
  have h1 : strEndsWith (url_base_of root) "/admin" = true :=
    strEndsWith_url_base_of root
  have h2 : rstripSlash (url_base_of root) = url_base_of root :=
    rstripSlash_of_strEndsWith_admin _ h1
  show (if strEndsWith (rstripSlash (url_base_of root)) "/admin" = true
      then rstripSlash (url_base_of root)
      else rstripSlash (url_base_of root) ++ "/admin") = url_base_of root
  rw [h2, if_pos h1]

end Medusa
